import Mathlib

/-!
Verification development for the Pdf-AI-Assistant frontend.

The embedding models the client-side session state and the controllers in
src/frontend/components/ChatPanel.tsx, src/frontend/components/DocumentSidebar.tsx,
the FileUpload component and the NotesPanel component. The asynchronous
callback flow of a streaming chat turn is modelled as a sequential
composition of state transitions: the start of the turn, one transition per
delivered fragment, and a terminal transition (normal end of stream or
error). The Zustand store source file (src/lib/store.ts) is not part of the
available sources; its mutation operations are modelled from the
specification, as noted on each such definition.
-/

namespace PdfAssistant

/-- Model of the JavaScript string method trim: whitespace is removed from
both ends. Written by structural recursion over the character list so it
evaluates inside the kernel. -/
def jsTrim (s : String) : String :=
  ⟨((s.data.dropWhile Char.isWhitespace).reverse.dropWhile Char.isWhitespace).reverse⟩

/-- Model of the JavaScript string method toLowerCase, written over the
character list. -/
def jsToLower (s : String) : String :=
  ⟨s.data.map Char.toLower⟩

/-- Model of the JavaScript string method endsWith, written over the
character lists. -/
def jsEndsWith (s suffixStr : String) : Bool :=
  suffixStr.data.isSuffixOf s.data

/-- Role of a chat message, from the Message type used in ChatPanel.tsx. -/
inductive Role where
  | user
  | assistant
deriving DecidableEq, Repr

/-- A chat message: role and text content. -/
structure Message where
  role : Role
  content : String
deriving DecidableEq, Repr

/-- A document record, with the fields the frontend components read
(doc.id, doc.filename, doc.file_size, doc.page_count, doc.created_at). -/
structure Document where
  id : String
  filename : String
  file_size : Nat
  page_count : Nat
  created_at : String
deriving DecidableEq, Repr

/-- A note record as used by the NotesPanel component. -/
structure Note where
  id : String
  title : String
  content : String
deriving DecidableEq, Repr

/-- A flashcard record. -/
structure Flashcard where
  id : String
  question : String
  answer : String
deriving DecidableEq, Repr

/-- The client-side session state: the store fields (documents,
currentDocument, messages, summary, keywords, flashcards, notes and the
loading flags) together with the component-local state of ChatPanel
(input, streamingContent, suggestions, isLoadingSuggestions,
lastUserMessageIndex), the NotesPanel creation form (isCreating, newTitle,
newContent) and the list of raised toast notifications. -/
structure AppState where
  documents : List Document
  currentDocument : Option Document
  messages : List Message
  summary : String
  keywords : List String
  flashcards : List Flashcard
  notes : List Note
  isLoadingChat : Bool
  isLoadingSummary : Bool
  isLoadingKeywords : Bool
  isLoadingFlashcards : Bool
  isUploading : Bool
  input : String
  streamingContent : String
  suggestions : List String
  isLoadingSuggestions : Bool
  lastUserMessageIndex : Option Nat
  isCreating : Bool
  newTitle : String
  newContent : String
  toasts : List String
deriving DecidableEq, Repr

/-- The state at application start: everything empty, no active document,
all flags cleared. -/
def emptyState : AppState where
  documents := []
  currentDocument := none
  messages := []
  summary := ""
  keywords := []
  flashcards := []
  notes := []
  isLoadingChat := false
  isLoadingSummary := false
  isLoadingKeywords := false
  isLoadingFlashcards := false
  isUploading := false
  input := ""
  streamingContent := ""
  suggestions := []
  isLoadingSuggestions := false
  lastUserMessageIndex := none
  isCreating := false
  newTitle := ""
  newContent := ""
  toasts := []

/-- Modelled from the spec: the store operation addMessage appends one
message to the message sequence (the store source src/lib/store.ts is not
among the available sources; the spec lists addMessage among the
per-feature appenders of the Session Store). -/
def addMessage (m : Message) (st : AppState) : AppState :=
  { st with messages := st.messages ++ [m] }

/-- Modelled from the spec: setCurrentDocument sets the active document and
does not itself clear derived state. -/
def setCurrentDocument (d : Option Document) (st : AppState) : AppState :=
  { st with currentDocument := d }

/-- Modelled from the spec: addDocument inserts one document into the
document set. -/
def addDocument (d : Document) (st : AppState) : AppState :=
  { st with documents := st.documents ++ [d] }

/-- Modelled from the spec: resetDocumentState clears messages, summary,
keywords, flashcards, notes and all loading flags. -/
def resetDocumentState (st : AppState) : AppState :=
  { st with
      messages := []
      summary := ""
      keywords := []
      flashcards := []
      notes := []
      isLoadingChat := false
      isLoadingSummary := false
      isLoadingKeywords := false
      isLoadingFlashcards := false
      isUploading := false }

/-- Modelled from the spec: addNote appends one note to the cached note
list. -/
def addNote (n : Note) (st : AppState) : AppState :=
  { st with notes := st.notes ++ [n] }

/-- Outcome of an asynchronous gateway call: the resolved value or a
rejection. -/
inductive FetchResult (α : Type) where
  | ok (value : α)
  | failed (msg : String)

/-- Terminal signal of a chat stream: normal end of stream, or a transport
or stream error. -/
inductive StreamResult where
  | success
  | failure (err : String)
deriving DecidableEq, Repr

/-- One full stream delivery: the ordered fragments delivered before the
terminal signal, and the terminal signal itself. -/
structure StreamOutcome where
  chunks : List String
  result : StreamResult
deriving DecidableEq, Repr

/-- Concatenation of the delivered fragments, in order. -/
def joinChunks : List String → String
  | [] => ""
  | c :: rest => c ++ joinChunks rest

/-- The per-fragment callback of sendMessage (ChatPanel.tsx lines 104-107):
each fragment is appended to the local accumulator and streamingContent is
set to the accumulator. Returns the final accumulator value and the state
after all fragment callbacks ran. -/
def applyChunks : List String → String → AppState → String × AppState
  | [], acc, st => (acc, st)
  | c :: rest, acc, st =>
      applyChunks rest (acc ++ c) { st with streamingContent := acc ++ c }

/-- The completion callback of sendMessage (ChatPanel.tsx lines 108-114):
clear the loading flag, append one assistant message when the trimmed
accumulator is non-empty, then clear streamingContent. -/
def streamComplete (acc : String) (st : AppState) : AppState :=
  let st1 := { st with isLoadingChat := false }
  let st2 := if jsTrim acc ≠ "" then addMessage ⟨Role.assistant, acc⟩ st1 else st1
  { st2 with streamingContent := "" }

/-- The error callback of sendMessage (ChatPanel.tsx lines 115-119): raise
a toast, clear streamingContent, clear the loading flag. The accumulator is
discarded. -/
def streamError (err : String) (st : AppState) : AppState :=
  { st with
      toasts := st.toasts ++ ["Failed to get response: " ++ err]
      streamingContent := ""
      isLoadingChat := false }

/-- The fresh-submission branch of sendMessage (ChatPanel.tsx lines
87-92): build the user message from the trimmed input, append it through
addMessage, record the index of the new user message (the length of the
message list before the append), and send the prior history plus the new
user message. The four common updates of lines 94-97 (clear input, set the
loading flag, clear streamingContent, clear suggestions) are applied as
well. -/
def freshTurnStart (messageContent : String) (st : AppState) :
    AppState × Option (List Message) :=
  let userMessage : Message := ⟨Role.user, jsTrim messageContent⟩
  let st1 := addMessage userMessage st
  let st2 := { st1 with lastUserMessageIndex := some st.messages.length }
  ({ st2 with
      input := ""
      isLoadingChat := true
      streamingContent := ""
      suggestions := [] },
   some (st.messages ++ [userMessage]))

/-- The synchronous prefix of sendMessage (ChatPanel.tsx lines 79-98): the
guard of line 80 (blank trimmed content, no active document, or a turn
already loading means return with no effect), the choice of messagesToSend
(the regenerate branch slices the history up to and including the recorded
last user message index and appends nothing), and the state updates before
the stream is opened. The second component is the request sent to the
streaming endpoint, or none when the guard returned. -/
def sendMessageStart (messageContent : String) (isRegenerate : Bool)
    (st : AppState) : AppState × Option (List Message) :=
  if jsTrim messageContent = "" ∨ st.currentDocument = none ∨ st.isLoadingChat = true then
    (st, none)
  else
    match isRegenerate, st.lastUserMessageIndex with
    | true, some idx =>
        ({ st with
            input := ""
            isLoadingChat := true
            streamingContent := ""
            suggestions := [] },
         some (st.messages.take (idx + 1)))
    | true, none => freshTurnStart messageContent st
    | false, _ => freshTurnStart messageContent st

/-- One whole chat turn of sendMessage (ChatPanel.tsx lines 79-121): the
synchronous prefix, then, when a request was issued, the fragment callbacks
in delivery order followed by the terminal callback chosen by the stream
outcome. The second component is the request that was sent, or none. -/
def sendMessage (messageContent : String) (isRegenerate : Bool)
    (outcome : StreamOutcome) (st : AppState) :
    AppState × Option (List Message) :=
  match sendMessageStart messageContent isRegenerate st with
  | (st0, none) => (st0, none)
  | (st1, some toSend) =>
      let p := applyChunks outcome.chunks "" st1
      match outcome.result with
      | StreamResult.success => (streamComplete p.1 p.2, some toSend)
      | StreamResult.failure err => (streamError err p.2, some toSend)

/-- Index of the last user message in the sequence, as computed by the
backwards loop of handleRegenerate (ChatPanel.tsx lines 130-136); none when
the sequence holds no user message. -/
def lastUserIdxAux : List Message → Nat → Option Nat → Option Nat
  | [], _, best => best
  | m :: rest, i, best =>
      lastUserIdxAux rest (i + 1) (if m.role = Role.user then some i else best)

/-- Index of the last user message, entry point. -/
def lastUserIdx (msgs : List Message) : Option Nat :=
  lastUserIdxAux msgs 0 none

/-- handleRegenerate (ChatPanel.tsx lines 128-152): find the last user
message; when none exists return with no effect; otherwise record its index
in lastUserMessageIndex and resubmit its content through sendMessage with
the regenerate flag. The block of lines 143-149 is an empty comment block
in the source (no removal of the stale assistant message happens) and
contributes no transition. -/
def handleRegenerate (outcome : StreamOutcome) (st : AppState) :
    AppState × Option (List Message) :=
  match lastUserIdx st.messages with
  | none => (st, none)
  | some i =>
      let lastUserContent := (st.messages.getD i ⟨Role.user, ""⟩).content
      sendMessage lastUserContent true outcome
        { st with lastUserMessageIndex := some i }

/-- handleSelectDocument (DocumentSidebar.tsx lines 43-48): when the
selected document differs from the current one (or no document is active),
clear the derived state through resetDocumentState and then set the new
active document; otherwise do nothing. -/
def handleSelectDocument (doc : Document) (st : AppState) : AppState :=
  if st.currentDocument.map Document.id ≠ some doc.id then
    setCurrentDocument (some doc) (resetDocumentState st)
  else
    st

/-- The ChatPanel effect on a change of the active document id
(ChatPanel.tsx lines 63-66): the suggestion set is cleared. -/
def clearSuggestionsOnDocChange (st : AppState) : AppState :=
  { st with suggestions := [] }

/-- The guard of fetchSuggestions (ChatPanel.tsx lines 41-44): a document
must be active, the history must hold at least two messages, and the last
message must be from the assistant. -/
def canFetchSuggestions (st : AppState) : Bool :=
  st.currentDocument.isSome && decide (2 ≤ st.messages.length) &&
    (match st.messages.getLast? with
     | some m => m.role = Role.assistant
     | none => false)

/-- fetchSuggestions (ChatPanel.tsx lines 40-55): when the guard fails,
return with no effect and no request; otherwise set the suggestion loading
flag, issue the request, on resolution replace the suggestion set, on
rejection only log (no toast, no change to the suggestion set), and finally
clear the suggestion loading flag. The second component records whether a
network request was issued. -/
def fetchSuggestions (outcome : FetchResult (List String)) (st : AppState) :
    AppState × Bool :=
  if canFetchSuggestions st then
    let st1 := { st with isLoadingSuggestions := true }
    match outcome with
    | FetchResult.ok xs =>
        ({ st1 with suggestions := xs, isLoadingSuggestions := false }, true)
    | FetchResult.failed _ =>
        ({ st1 with isLoadingSuggestions := false }, true)
  else
    (st, false)

/-- A file as handed to the drop handler: its name and its size in
bytes. -/
structure DroppedFile where
  name : String
  size : Nat
deriving DecidableEq, Repr

/-- FileUpload onDrop (FileUpload component lines 14-42): reject with a
toast when the lowercased name does not end in .pdf; else reject with a
toast when the size exceeds 10 * 1024 * 1024 bytes; otherwise set the
uploading flag, reset the document state, and issue the upload: on success
add the returned document, make it active and toast success; on failure
toast the error; in both cases finally clear the uploading flag. The second
component records whether a network request was issued. -/
def onDrop (file : DroppedFile) (uploadResult : FetchResult Document)
    (st : AppState) : AppState × Bool :=
  if ¬ jsEndsWith (jsToLower file.name) ".pdf" then
    ({ st with toasts := st.toasts ++ ["Please upload a PDF file"] }, false)
  else if 10 * 1024 * 1024 < file.size then
    ({ st with toasts := st.toasts ++ ["File size must be less than 10MB"] }, false)
  else
    let st1 := resetDocumentState { st with isUploading := true }
    match uploadResult with
    | FetchResult.ok doc =>
        let st2 := setCurrentDocument (some doc) (addDocument doc st1)
        let st3 := { st2 with
          toasts := st2.toasts ++ ["\"" ++ file.name ++ "\" uploaded successfully!"] }
        ({ st3 with isUploading := false }, true)
    | FetchResult.failed msg =>
        ({ st1 with toasts := st1.toasts ++ [msg], isUploading := false }, true)

/-- The title string sent by handleCreateNote: the JS expression
newTitle || the default means the empty string falls back to the
default title. -/
def noteTitleSent (st : AppState) : String :=
  if st.newTitle = "" then "Untitled Note" else st.newTitle

/-- NotesPanel handleCreateNote (NotesPanel component): when no document is
active or the trimmed new content is empty, return with no effect and no
request; otherwise issue createNote with the active document id, the title
(empty title replaced by the default), and the raw content; on success add
the returned note, close the creation form, reset both form fields and
toast success; on failure toast the error. The second component is the
issued request (document id, title, content), or none. -/
def handleCreateNote (createResult : FetchResult Note) (st : AppState) :
    AppState × Option (String × String × String) :=
  match st.currentDocument with
  | none => (st, none)
  | some doc =>
      if jsTrim st.newContent = "" then
        (st, none)
      else
        match createResult with
        | FetchResult.ok note =>
            let st1 := addNote note st
            ({ st1 with
                isCreating := false
                newTitle := ""
                newContent := ""
                toasts := st1.toasts ++ ["Note saved!"] },
             some (doc.id, noteTitleSent st, st.newContent))
        | FetchResult.failed _ =>
            ({ st with toasts := st.toasts ++ ["Failed to save note"] },
             some (doc.id, noteTitleSent st, st.newContent))

/-- The disabled attribute of the chat textarea (ChatPanel.tsx line
376). -/
def inputDisabled (st : AppState) : Bool :=
  st.isLoadingChat

/-- The disabled attribute of the send button (ChatPanel.tsx line 380). -/
def sendButtonDisabled (st : AppState) : Bool :=
  jsTrim st.input = "" || st.isLoadingChat

/-- The disabled attribute of the regenerate button (ChatPanel.tsx line
275). -/
def regenerateButtonDisabled (st : AppState) : Bool :=
  st.isLoadingChat

/-- All per-feature derived state is clear: empty messages, summary,
keywords, flashcards and notes, and all loading flags false. -/
def perFeatureCleared (st : AppState) : Prop :=
  st.messages = [] ∧ st.summary = "" ∧ st.keywords = [] ∧
    st.flashcards = [] ∧ st.notes = [] ∧ st.isLoadingChat = false ∧
    st.isLoadingSummary = false ∧ st.isLoadingKeywords = false ∧
    st.isLoadingFlashcards = false ∧ st.isUploading = false

/-- A sample document used for concrete evaluations. -/
def cDocA : Document :=
  ⟨"doc-a", "alpha.pdf", 1000, 3, "2024-01-01"⟩

/-- A second sample document used for concrete evaluations. -/
def cDocB : Document :=
  ⟨"doc-b", "beta.pdf", 2000, 5, "2024-01-02"⟩

/-- A four-turn chat history: user, assistant, user, assistant. -/
def cHistory : List Message :=
  [⟨Role.user, "U1"⟩, ⟨Role.assistant, "A1"⟩, ⟨Role.user, "U2"⟩,
   ⟨Role.assistant, "A2"⟩]

/-- A quiescent state with one active document and no history. -/
def stTurn : AppState :=
  { emptyState with currentDocument := some cDocA }

/-- A quiescent state with one active document and the four-turn
history. -/
def stHistory : AppState :=
  { emptyState with currentDocument := some cDocA, messages := cHistory }

/-- A state in which a chat turn is in flight. -/
def stLoading : AppState :=
  { emptyState with
      currentDocument := some cDocA
      messages := [⟨Role.user, "U1"⟩]
      isLoadingChat := true
      input := "typed while waiting" }

/-- A state with populated per-feature data for a document, used to check
that switching documents clears it. -/
def stJunk : AppState :=
  { emptyState with
      currentDocument := some cDocA
      messages := [⟨Role.user, "U1"⟩]
      summary := "old summary"
      keywords := ["k1", "k2"]
      flashcards := [⟨"f1", "q", "a"⟩]
      notes := [⟨"n1", "t", "c"⟩]
      isLoadingChat := true
      suggestions := ["s1"] }

/-- A sample note returned by the gateway. -/
def cNote : Note :=
  ⟨"note-1", "Untitled Note", "hello"⟩

/-- A state with the note creation form holding an empty title and
non-blank content. -/
def stNoteForm : AppState :=
  { emptyState with
      currentDocument := some cDocA
      isCreating := true
      newTitle := ""
      newContent := "hello" }

/-! Helper lemmas about the chat-turn transitions. -/

theorem applyChunks_snd_messages (chunks : List String) (acc : String) (st : AppState) :
    ((applyChunks chunks acc st).2).messages = st.messages := by
  induction chunks generalizing acc st with
  | nil => rfl
  | cons c rest ih => simp [applyChunks, ih]

theorem applyChunks_fst (chunks : List String) (acc : String) (st : AppState) :
    (applyChunks chunks acc st).1 = acc ++ joinChunks chunks := by
  induction chunks generalizing acc st with
  | nil => simp [applyChunks, joinChunks]
  | cons c rest ih => simp [applyChunks, joinChunks, ih, String.append_assoc]

theorem sendMessageStart_regen (content : String) (st : AppState) (idx : Nat)
    (h1 : jsTrim content ≠ "") (h2 : st.currentDocument ≠ none)
    (h3 : st.isLoadingChat = false)
    (hidx : st.lastUserMessageIndex = some idx) :
    sendMessageStart content true st =
      ({ st with
          input := ""
          isLoadingChat := true
          streamingContent := ""
          suggestions := [] },
       some (st.messages.take (idx + 1))) := by
  unfold sendMessageStart
  rw [if_neg (by simp [h1, h2, h3])]
  rw [hidx]

theorem sendMessageStart_fresh (content : String) (isRegen : Bool) (st : AppState)
    (h1 : jsTrim content ≠ "") (h2 : st.currentDocument ≠ none)
    (h3 : st.isLoadingChat = false)
    (hcase : isRegen = false ∨ st.lastUserMessageIndex = none) :
    sendMessageStart content isRegen st = freshTurnStart content st := by
  unfold sendMessageStart
  rw [if_neg (by simp [h1, h2, h3])]
  rcases hcase with h | h
  · subst h
    cases st.lastUserMessageIndex <;> rfl
  · rw [h]
    cases isRegen <;> rfl

theorem sendMessage_failure_eq (content : String) (isRegen : Bool)
    (chunks : List String) (err : String) (st st1 : AppState) (ts : List Message)
    (h : sendMessageStart content isRegen st = (st1, some ts)) :
    sendMessage content isRegen ⟨chunks, StreamResult.failure err⟩ st =
      (streamError err (applyChunks chunks "" st1).2, some ts) := by
  unfold sendMessage
  rw [h]

theorem sendMessage_success_eq (content : String) (isRegen : Bool)
    (chunks : List String) (st st1 : AppState) (ts : List Message)
    (h : sendMessageStart content isRegen st = (st1, some ts)) :
    sendMessage content isRegen ⟨chunks, StreamResult.success⟩ st =
      (streamComplete (applyChunks chunks "" st1).1 (applyChunks chunks "" st1).2,
       some ts) := by
  unfold sendMessage
  rw [h]

theorem sendMessage_loading (content : String) (isRegen : Bool)
    (outcome : StreamOutcome) (st : AppState) (h : st.isLoadingChat = true) :
    sendMessage content isRegen outcome st = (st, none) := by
  unfold sendMessage sendMessageStart
  rw [if_pos (Or.inr (Or.inr h))]

theorem sendMessage_guard (content : String) (isRegen : Bool)
    (outcome : StreamOutcome) (st : AppState)
    (h : jsTrim content = "" ∨ st.currentDocument = none) :
    sendMessage content isRegen outcome st = (st, none) := by
  unfold sendMessage sendMessageStart
  rcases h with h | h
  · rw [if_pos (Or.inl h)]
  · rw [if_pos (Or.inr (Or.inl h))]

theorem sendMessageStart_issues (content : String) (isRegen : Bool) (st : AppState)
    (h1 : jsTrim content ≠ "") (h2 : st.currentDocument ≠ none)
    (h3 : st.isLoadingChat = false) :
    ∃ st1 ts, sendMessageStart content isRegen st = (st1, some ts) := by
  cases hR : isRegen
  · exact ⟨(freshTurnStart content st).1, st.messages ++ [⟨Role.user, jsTrim content⟩],
      by rw [sendMessageStart_fresh content false st h1 h2 h3 (Or.inl rfl)]; rfl⟩
  · cases hL : st.lastUserMessageIndex
    · exact ⟨(freshTurnStart content st).1, st.messages ++ [⟨Role.user, jsTrim content⟩],
        by rw [sendMessageStart_fresh content true st h1 h2 h3 (Or.inr hL)]; rfl⟩
    · exact ⟨_, _, sendMessageStart_regen content st _ h1 h2 h3 hL⟩

theorem handleRegenerate_loading (outcome : StreamOutcome) (st : AppState)
    (h : st.isLoadingChat = true) :
    handleRegenerate outcome st =
      (match lastUserIdx st.messages with
       | none => (st, none)
       | some i => ({ st with lastUserMessageIndex := some i }, none)) := by
  unfold handleRegenerate
  cases hL : lastUserIdx st.messages with
  | none => rfl
  | some i => exact sendMessage_loading _ true outcome _ h

/-! The claims. -/

/-- Claim C1: the code evaluated at the history [U1, A1, U2, A2] with a
successful regeneration producing A2new. The request carries exactly
[U1, A1, U2], as the claim states; but the post-state history is
[U1, A1, U2, A2, A2new] — the stale assistant reply A2 is not removed and
the new reply is appended after it, contradicting the claimed post-state
[U1, A1, U2, A2new] with exactly one assistant message after U2. The
source itself documents the intent to remove the stale assistant message
and notes that no removal action exists (ChatPanel.tsx lines 143-149). -/
theorem regenerate_duplicates_assistant :
    (handleRegenerate ⟨["A2new"], StreamResult.success⟩ stHistory).2
      = some [⟨Role.user, "U1"⟩, ⟨Role.assistant, "A1"⟩, ⟨Role.user, "U2"⟩] ∧
    (handleRegenerate ⟨["A2new"], StreamResult.success⟩ stHistory).1.messages
      = [⟨Role.user, "U1"⟩, ⟨Role.assistant, "A1"⟩, ⟨Role.user, "U2"⟩,
         ⟨Role.assistant, "A2"⟩, ⟨Role.assistant, "A2new"⟩] := by
  decide

/-- Claim C2, counterexample to the claim as stated: a fresh submission
whose stream fails leaves the just-appended user message in the history, so
the message sequence is not exactly as it was before the turn began. -/
theorem chat_error_counterexample :
    (sendMessage "hi" false ⟨["frag"], StreamResult.failure "boom"⟩ stTurn).1.messages
      ≠ stTurn.messages := by
  decide

/-- Claim C2 (amended): a failed streaming turn commits no assistant
message — the resulting message sequence equals the sequence as it stood
when the stream was opened: the pre-turn sequence plus only the
just-appended user message for a fresh submission, and exactly the pre-turn
sequence for a regeneration — the accumulator is discarded and the loading
flag is cleared, re-enabling the control surface. -/
theorem chat_error_turn (content : String) (isRegen : Bool) (chunks : List String)
    (err : String) (st : AppState)
    (h1 : jsTrim content ≠ "") (h2 : st.currentDocument ≠ none)
    (h3 : st.isLoadingChat = false) :
    ((sendMessage content isRegen ⟨chunks, StreamResult.failure err⟩ st).1.messages
        = (sendMessageStart content isRegen st).1.messages) ∧
    (isRegen = false →
        (sendMessage content isRegen ⟨chunks, StreamResult.failure err⟩ st).1.messages
          = st.messages ++ [⟨Role.user, jsTrim content⟩]) ∧
    (∀ idx, isRegen = true → st.lastUserMessageIndex = some idx →
        (sendMessage content isRegen ⟨chunks, StreamResult.failure err⟩ st).1.messages
          = st.messages) ∧
    (sendMessage content isRegen ⟨chunks, StreamResult.failure err⟩ st).1.isLoadingChat
        = false ∧
    (sendMessage content isRegen ⟨chunks, StreamResult.failure err⟩ st).1.streamingContent
        = "" ∧
    inputDisabled (sendMessage content isRegen ⟨chunks, StreamResult.failure err⟩ st).1
        = false := by
  cases hR : isRegen with
  | false =>
      have hs := sendMessageStart_fresh content false st h1 h2 h3 (Or.inl rfl)
      have heq := sendMessage_failure_eq content false chunks err st
        (freshTurnStart content st).1 (st.messages ++ [⟨Role.user, jsTrim content⟩])
        (by rw [hs]; rfl)
      rw [heq, hs]
      refine ⟨?_, ?_, ?_, ?_, ?_, ?_⟩ <;>
        simp [streamError, applyChunks_snd_messages, freshTurnStart, addMessage,
          inputDisabled]
  | true =>
      cases hL : st.lastUserMessageIndex with
      | none =>
          have hs := sendMessageStart_fresh content true st h1 h2 h3 (Or.inr hL)
          have heq := sendMessage_failure_eq content true chunks err st
            (freshTurnStart content st).1 (st.messages ++ [⟨Role.user, jsTrim content⟩])
            (by rw [hs]; rfl)
          rw [heq, hs]
          refine ⟨?_, ?_, ?_, ?_, ?_, ?_⟩ <;>
            simp [streamError, applyChunks_snd_messages, freshTurnStart, addMessage,
              inputDisabled, hL]
      | some idx =>
          have hs := sendMessageStart_regen content st idx h1 h2 h3 hL
          have heq := sendMessage_failure_eq content true chunks err st
            _ (st.messages.take (idx + 1)) hs
          rw [heq, hs]
          refine ⟨?_, ?_, ?_, ?_, ?_, ?_⟩ <;>
            simp [streamError, applyChunks_snd_messages, inputDisabled, hL]

/-- Claim C2, witness: the amended theorem applied to a concrete failing
fresh turn. -/
theorem chat_error_turn_witness :
    (sendMessage "hi" false ⟨["frag"], StreamResult.failure "boom"⟩ stTurn).1.isLoadingChat
        = false ∧
    (sendMessage "hi" false ⟨["frag"], StreamResult.failure "boom"⟩ stTurn).1.messages
        = stTurn.messages ++ [⟨Role.user, jsTrim "hi"⟩] :=
  ⟨(chat_error_turn "hi" false ["frag"] "boom" stTurn (by decide) (by decide) rfl).2.2.2.1,
   (chat_error_turn "hi" false ["frag"] "boom" stTurn (by decide) (by decide) rfl).2.1 rfl⟩

/-- Claim C3, counterexample to the claim as stated: a stream delivering
one whitespace fragment ends with a non-empty accumulator, yet no
assistant message is appended — the code tests the trimmed accumulator,
not the accumulator itself. -/
theorem chat_success_whitespace_counterexample :
    joinChunks [" "] ≠ "" ∧
    (sendMessage "hi" false ⟨[" "], StreamResult.success⟩ stTurn).1.messages
      = [⟨Role.user, "hi"⟩] := by
  decide

/-- Claim C3 (amended): for a chat turn whose stream terminates normally,
if the trimmed accumulator is non-empty then exactly one assistant message
holding the full untrimmed accumulated text is appended to the sequence as
it stood when the stream was opened; if the trimmed accumulator is empty
then no assistant message is appended; in both cases the accumulator is
cleared and the loading flag returns to false. -/
theorem chat_success_turn (content : String) (isRegen : Bool) (chunks : List String)
    (st : AppState)
    (h1 : jsTrim content ≠ "") (h2 : st.currentDocument ≠ none)
    (h3 : st.isLoadingChat = false) :
    (jsTrim (joinChunks chunks) ≠ "" →
        (sendMessage content isRegen ⟨chunks, StreamResult.success⟩ st).1.messages
          = (sendMessageStart content isRegen st).1.messages
              ++ [⟨Role.assistant, joinChunks chunks⟩]) ∧
    (jsTrim (joinChunks chunks) = "" →
        (sendMessage content isRegen ⟨chunks, StreamResult.success⟩ st).1.messages
          = (sendMessageStart content isRegen st).1.messages) ∧
    (sendMessage content isRegen ⟨chunks, StreamResult.success⟩ st).1.streamingContent
        = "" ∧
    (sendMessage content isRegen ⟨chunks, StreamResult.success⟩ st).1.isLoadingChat
        = false := by
  obtain ⟨st1, ts, hs⟩ := sendMessageStart_issues content isRegen st h1 h2 h3
  have heq := sendMessage_success_eq content isRegen chunks st st1 ts hs
  rw [heq, hs]
  have hA : (applyChunks chunks "" st1).1 = joinChunks chunks := by
    rw [applyChunks_fst]
    simp
  by_cases hc : jsTrim (joinChunks chunks) = "" <;>
    simp [streamComplete, addMessage, applyChunks_snd_messages, hA, hc]

/-- Claim C3, witness: the amended theorem applied to a concrete
successful turn with two fragments. -/
theorem chat_success_turn_witness :
    (sendMessage "hi" false ⟨["An ", "answer"], StreamResult.success⟩ stTurn).1.messages
      = (sendMessageStart "hi" false stTurn).1.messages
          ++ [⟨Role.assistant, joinChunks ["An ", "answer"]⟩] :=
  (chat_success_turn "hi" false ["An ", "answer"] stTurn (by decide) (by decide) rfl).1
    (by decide)

/-- Claim C4: the code evaluated at the scenario the claim quantifies
over — a turn is started for document A, the user switches to document B
while the stream is outstanding (resetting the per-document state and
clearing the suggestions), and then the stale stream completes. The stale
assistant message is appended to document B's (freshly cleared) message
sequence: no turn identity is tracked in sendMessage, so the late
completion callback is applied, contradicting the claim. -/
theorem stale_stream_applied_to_new_document :
    (streamComplete "stale answer"
        (clearSuggestionsOnDocChange
          (handleSelectDocument cDocB
            (sendMessageStart "question" false stTurn).1))).currentDocument
      = some cDocB ∧
    (streamComplete "stale answer"
        (clearSuggestionsOnDocChange
          (handleSelectDocument cDocB
            (sendMessageStart "question" false stTurn).1))).messages
      = [⟨Role.assistant, "stale answer"⟩] := by
  decide

/-- Claim C5: a dropped file whose size exceeds 10 * 1024 * 1024 bytes or
whose name does not end in .pdf (case-insensitively) is rejected before any
network call: the upload handler issues no request and the only state
change is one error notification. -/
theorem upload_validation (file : DroppedFile) (r : FetchResult Document)
    (st : AppState)
    (h : 10 * 1024 * 1024 < file.size ∨ jsEndsWith (jsToLower file.name) ".pdf" = false) :
    (onDrop file r st).2 = false ∧
    ∃ msg, (onDrop file r st).1 = { st with toasts := st.toasts ++ [msg] } := by
  unfold onDrop
  by_cases hp : jsEndsWith (jsToLower file.name) ".pdf" = true
  · rcases h with h | h
    · rw [if_neg (by simp [hp]), if_pos h]
      exact ⟨rfl, "File size must be less than 10MB", rfl⟩
    · rw [hp] at h
      simp at h
  · rw [if_pos (by simp [hp])]
    exact ⟨rfl, "Please upload a PDF file", rfl⟩

/-- Claim C5, witness: a .txt file is rejected with no network call. -/
theorem upload_validation_witness :
    (onDrop ⟨"notes.txt", 100⟩ (FetchResult.ok cDocA) emptyState).2 = false :=
  (upload_validation ⟨"notes.txt", 100⟩ (FetchResult.ok cDocA) emptyState
    (Or.inr (by decide))).1

/-- Claim C6: switching the active document in the normal user flow clears
the per-feature derived state. Selecting a different document in the
sidebar resets messages, summary, keywords, flashcards, notes and all
loading flags before the new document becomes active; a successful upload
likewise resets them before the uploaded document becomes active. -/
theorem document_switch_resets :
    (∀ (doc : Document) (st : AppState),
        st.currentDocument.map Document.id ≠ some doc.id →
          perFeatureCleared (handleSelectDocument doc st) ∧
          (handleSelectDocument doc st).currentDocument = some doc) ∧
    (∀ (file : DroppedFile) (d : Document) (st : AppState),
        jsEndsWith (jsToLower file.name) ".pdf" = true →
        file.size ≤ 10 * 1024 * 1024 →
          perFeatureCleared (onDrop file (FetchResult.ok d) st).1 ∧
          (onDrop file (FetchResult.ok d) st).1.currentDocument = some d) := by
  constructor
  · intro doc st h
    unfold handleSelectDocument
    rw [if_pos h]
    simp [perFeatureCleared, setCurrentDocument, resetDocumentState]
  · intro file d st hp hs
    unfold onDrop
    rw [if_neg (by simp [hp]), if_neg (by omega)]
    simp [perFeatureCleared, setCurrentDocument, addDocument, resetDocumentState]

/-- Claim C6, witness: selecting a different document from a state full of
stale per-feature data clears it and activates the new document. -/
theorem document_switch_resets_witness :
    perFeatureCleared (handleSelectDocument cDocB stJunk) ∧
    (handleSelectDocument cDocB stJunk).currentDocument = some cDocB :=
  document_switch_resets.1 cDocB stJunk (by decide)

/-- Claim C7: while the chat loading flag is set, the input field, the
send button and the regenerate button are all disabled, a further
sendMessage invocation returns with the state unchanged and no request,
and a further handleRegenerate invocation issues no request and leaves the
message sequence, the loading flag, the accumulator and the suggestion set
unchanged — so a second concurrent turn can never start. -/
theorem single_active_turn (st : AppState) (h : st.isLoadingChat = true) :
    inputDisabled st = true ∧ sendButtonDisabled st = true ∧
    regenerateButtonDisabled st = true ∧
    (∀ (content : String) (isRegen : Bool) (outcome : StreamOutcome),
        sendMessage content isRegen outcome st = (st, none)) ∧
    (∀ outcome : StreamOutcome,
        (handleRegenerate outcome st).2 = none ∧
        (handleRegenerate outcome st).1.messages = st.messages ∧
        (handleRegenerate outcome st).1.isLoadingChat = true ∧
        (handleRegenerate outcome st).1.streamingContent = st.streamingContent ∧
        (handleRegenerate outcome st).1.suggestions = st.suggestions) := by
  refine ⟨by simp [inputDisabled, h], by simp [sendButtonDisabled, h],
    by simp [regenerateButtonDisabled, h],
    fun content isRegen outcome => sendMessage_loading content isRegen outcome st h, ?_⟩
  intro outcome
  rw [handleRegenerate_loading outcome st h]
  cases lastUserIdx st.messages <;> simp [h]

/-- Claim C7, witness: with a turn in flight, the input is disabled and a
second submission is a no-op. -/
theorem single_active_turn_witness :
    inputDisabled stLoading = true ∧
    sendMessage "another question" false ⟨[], StreamResult.success⟩ stLoading
      = (stLoading, none) :=
  ⟨(single_active_turn stLoading rfl).1,
   (single_active_turn stLoading rfl).2.2.2.1 "another question" false
     ⟨[], StreamResult.success⟩⟩

/-- Claim C8: a suggestion request is issued only when a document is
active, the history holds at least two messages and the last message is
from the assistant (which holds exactly after an assistant turn settled
successfully); a failed suggestion request changes neither the suggestion
set nor the notifications (it is swallowed), so the set stays empty after
the turn start cleared it; and the suggestion set is cleared both when a
new turn begins and when the active document changes. -/
theorem suggestions_policy :
    (∀ (r : FetchResult (List String)) (st : AppState),
        (fetchSuggestions r st).2 = true →
          st.currentDocument ≠ none ∧ 2 ≤ st.messages.length ∧
          st.messages.getLast?.map Message.role = some Role.assistant) ∧
    (∀ (msg : String) (st : AppState),
        (fetchSuggestions (FetchResult.failed msg) st).1.suggestions = st.suggestions ∧
        (fetchSuggestions (FetchResult.failed msg) st).1.toasts = st.toasts) ∧
    (∀ (msg : String) (st : AppState), st.suggestions = [] →
        (fetchSuggestions (FetchResult.failed msg) st).1.suggestions = []) ∧
    (∀ (content : String) (isRegen : Bool) (st : AppState),
        (sendMessageStart content isRegen st).2 ≠ none →
          (sendMessageStart content isRegen st).1.suggestions = []) ∧
    (∀ st : AppState, (clearSuggestionsOnDocChange st).suggestions = []) := by
  refine ⟨?_, ?_, ?_, ?_, ?_⟩
  · intro r st h
    unfold fetchSuggestions at h
    by_cases hc : canFetchSuggestions st = true
    · unfold canFetchSuggestions at hc
      simp only [Bool.and_eq_true, decide_eq_true_eq] at hc
      obtain ⟨⟨hdoc, hlen⟩, hlast⟩ := hc
      refine ⟨by simp [Option.isSome_iff_exists] at hdoc; obtain ⟨d, hd⟩ := hdoc; simp [hd],
        hlen, ?_⟩
      cases hg : st.messages.getLast? with
      | none => rw [hg] at hlast; simp at hlast
      | some m =>
          rw [hg] at hlast
          simp only [decide_eq_true_eq] at hlast
          simp [hg, hlast]
    · rw [if_neg hc] at h
      simp at h
  · intro msg st
    by_cases hc : canFetchSuggestions st = true <;>
      simp [fetchSuggestions, hc]
  · intro msg st hempty
    by_cases hc : canFetchSuggestions st = true <;>
      simp [fetchSuggestions, hc, hempty]
  · intro content isRegen st h
    rcases hE : sendMessageStart content isRegen st with ⟨st1, req⟩
    rw [hE] at h
    unfold sendMessageStart at hE
    split at hE
    · simp only [Prod.mk.injEq] at hE
      rw [← hE.2] at h
      simp at h
    · split at hE
      · simp only [Prod.mk.injEq] at hE
        rw [← hE.1]
      · simp only [freshTurnStart, addMessage, Prod.mk.injEq] at hE
        rw [← hE.1]
      · simp only [freshTurnStart, addMessage, Prod.mk.injEq] at hE
        rw [← hE.1]
  · intro st
    rfl

/-- Claim C8, witness: from a settled state whose last message is an
assistant reply, an issued suggestion request implies the guard facts. -/
theorem suggestions_policy_witness :
    stHistory.currentDocument ≠ none ∧ 2 ≤ stHistory.messages.length ∧
    stHistory.messages.getLast?.map Message.role = some Role.assistant :=
  suggestions_policy.1 (FetchResult.ok ["next question"]) stHistory (by decide)

/-- Claim C9: a submission whose trimmed content is empty, or made with no
active document, starts no turn — sendMessage returns the state unchanged
with no request; and on a valid fresh submission the user message placed in
the sequence is the trimmed form of the input. -/
theorem chat_submission_guard :
    (∀ (content : String) (isRegen : Bool) (outcome : StreamOutcome) (st : AppState),
        jsTrim content = "" ∨ st.currentDocument = none →
          sendMessage content isRegen outcome st = (st, none)) ∧
    (∀ (content : String) (st : AppState),
        jsTrim content ≠ "" → st.currentDocument ≠ none → st.isLoadingChat = false →
          (sendMessageStart content false st).1.messages
            = st.messages ++ [⟨Role.user, jsTrim content⟩]) := by
  constructor
  · exact fun content isRegen outcome st h =>
      sendMessage_guard content isRegen outcome st h
  · intro content st h1 h2 h3
    rw [sendMessageStart_fresh content false st h1 h2 h3 (Or.inl rfl)]
    simp [freshTurnStart, addMessage]

/-- Claim C9, witness: a whitespace-only submission is a complete no-op. -/
theorem chat_submission_guard_witness :
    sendMessage "   " false ⟨[], StreamResult.success⟩ stTurn = (stTurn, none) :=
  chat_submission_guard.1 "   " false ⟨[], StreamResult.success⟩ stTurn
    (Or.inl (by decide))

/-- Claim C10: creating a note with empty or whitespace-only content is a
no-op (no request issued, state unchanged); a creation with an empty title
sends the default title with the raw content to the gateway; and a
successful creation closes the form, resets both fields and appends the
returned note. -/
theorem note_creation :
    (∀ (r : FetchResult Note) (st : AppState), jsTrim st.newContent = "" →
        handleCreateNote r st = (st, none)) ∧
    (∀ (r : FetchResult Note) (st : AppState) (d : Document),
        st.currentDocument = some d → jsTrim st.newContent ≠ "" → st.newTitle = "" →
          (handleCreateNote r st).2 = some (d.id, "Untitled Note", st.newContent)) ∧
    (∀ (n : Note) (st : AppState) (d : Document),
        st.currentDocument = some d → jsTrim st.newContent ≠ "" →
          (handleCreateNote (FetchResult.ok n) st).1.isCreating = false ∧
          (handleCreateNote (FetchResult.ok n) st).1.newTitle = "" ∧
          (handleCreateNote (FetchResult.ok n) st).1.newContent = "" ∧
          (handleCreateNote (FetchResult.ok n) st).1.notes = st.notes ++ [n]) := by
  refine ⟨?_, ?_, ?_⟩
  · intro r st h
    unfold handleCreateNote
    cases st.currentDocument with
    | none => rfl
    | some d => simp [h]
  · intro r st d hd h ht
    cases r <;> simp [handleCreateNote, hd, h, noteTitleSent, ht]
  · intro n st d hd h
    simp [handleCreateNote, hd, h, addNote]

/-- Claim C10, witness: an empty-title creation sends the default title for
the active document with the raw content. -/
theorem note_creation_witness :
    (handleCreateNote (FetchResult.ok cNote) stNoteForm).2
      = some (cDocA.id, "Untitled Note", stNoteForm.newContent) :=
  note_creation.2.1 (FetchResult.ok cNote) stNoteForm cDocA rfl (by decide) rfl

end PdfAssistant
